import Mathlib

/-!
# Mip-chain generation (`gs::mipmapper::rebuild`)

A shallow embedding of `source/gs-mipmapper.cpp`.  The function talks to the
host graphics layer (libobs, Direct3D 11) only through calls; here every such
call appends one `Op` to a trace and updates an explicit `State`.  Exceptions
are explicit: an `Outcome` carries the error that left the function (if any)
together with the state at that moment, so that what an exception leaves
behind (for instance an acquired graphics context) stays visible.

`float_t` values are modelled by exact rationals.
-/

namespace Mipmapper

/-! ## Data model -/

/-- Modelled from the spec: the declaration of `gs::texture::type` lives in a header
that is not part of the sources at hand; the code only names `Normal` (ordinary 2D),
the other dimensionalities are the ones the data model lists. -/
inductive texture_type where
  | Normal
  | Cube
  | Volume
  | Array
  deriving DecidableEq, Repr

/-- Pixel format tag of libobs (`gs_color_format`), an enumeration value. -/
abbrev gs_color_format := Nat

/-- Pixel data of one surface (one mip level of a texture, or the scratch surface). -/
abbrev Image := List Nat

/-- The kernels of `gs::mipmapper::generator`, as named by the `switch` in `rebuild`. -/
inductive generator where
  | Point
  | Linear
  | Sharpen
  | Smoothen
  | Bicubic
  | Lanczos
  deriving DecidableEq, Repr

/-- Result of `gs_get_device_type()`; `rebuild` tests for exactly these two values. -/
inductive gs_device_type where
  | GS_DEVICE_DIRECT3D_11
  | GS_DEVICE_OPENGL
  deriving DecidableEq, Repr

/-- What `rebuild` reads from a `gs::texture`: the identity of the GPU object
(`get_object()`), `get_width()`, `get_height()`, `get_type()`, `get_color_format()`,
and the `MipLevels` field of the `D3D11_TEXTURE2D_DESC` of the object. -/
structure texture where
  id : Nat
  width : Nat
  height : Nat
  type : texture_type
  color_format : gs_color_format
  mip_levels : Nat
  deriving DecidableEq, Repr

/-- The member `renderTarget` of the engine, when allocated: its colour format
(`get_color_format()`) and the serial number of the allocation that made it. -/
structure rendertarget where
  uid : Nat
  color_format : gs_color_format
  deriving DecidableEq, Repr

/-- The errors that can leave `rebuild`: `std::invalid_argument` with its message
(the three validation failures), and an error thrown by a host operation. -/
inductive Error where
  | invalid_argument (what : String)
  | host (what : String)
  deriving DecidableEq, Repr

/-- The error thrown when width or height differ (line 123). -/
def DimensionMismatch : Error := Error.invalid_argument "source and target must have same size"

/-- The error thrown when the texture types differ (line 128). -/
def TypeMismatch : Error := Error.invalid_argument "source and target must have same type"

/-- The error thrown when the colour formats differ (line 133). -/
def FormatMismatch : Error := Error.invalid_argument "source and target must have same format"

/-- One call into the host graphics layer, in the order the calls are made. -/
inductive Op where
  | enter_graphics
  | leave_graphics
  | copy_texture (dst src : Nat)
  | rendertarget_create (format : gs_color_format)
  | load_vertexbuffer (bound : Bool)
  | load_indexbuffer
  | render (width height : Nat)
  | render_end
  | set_texture (name : String) (tex : Nat)
  | set_int (name : String) (value : Int)
  | set_float2 (name : String) (x y : ℚ)
  | set_float (name : String) (value : ℚ)
  | draw (technique : String) (vertices : Nat)
  | copy_subresource (dst mip : Nat)
  deriving DecidableEq

/-- What a draw of the resampling program can read: the technique, the bound image
(all levels of the bound texture), the bound parameters and the size of the region. -/
structure ShaderInput where
  technique : String
  image : Nat → Image
  level : Int
  texel_width : ℚ
  texel_height : ℚ
  strength : ℚ
  width : Nat
  height : Nat

/-- The parts of the environment `rebuild` depends on and that are not in this file of
the repository: the build target (`WIN32`/`WIN64` defined or not), the device type, which
host operations succeed (the constructors of `gs::rendertarget` and of the render scope and
`gs::effect::get_parameter` throw on failure), the number of passes of each technique of
`mipgen.effect` and what a draw of a given pass makes of the surface it draws into. -/
structure Host where
  win32 : Bool
  device_type : gs_device_type
  rendertarget_ok : gs_color_format → Bool
  render_ok : Nat → Nat → Bool
  has_parameter : String → Bool
  technique_passes : String → Nat
  shade : ShaderInput → Nat → Image → Image

/-- Engine member and graphics state threaded through a call.
`depth` counts `obs_enter_graphics` minus `obs_leave_graphics`; `trace` lists the host
calls made so far, oldest first; `content t k` is the image held by mip slot `k` of the
texture object `t`; `scratch` is the image held by the render target's surface;
`renderTarget` is the engine member; `allocs` numbers render-target allocations. -/
structure State where
  depth : Nat
  trace : List Op
  content : Nat → Nat → Image
  scratch : Image
  renderTarget : Option rendertarget
  allocs : Nat

/-- How a call (or a part of it) ends: the error that propagated, if any, and the state. -/
structure Outcome where
  thrown : Option Error
  state : State

/-- Records one host call. -/
def State.emit (s : State) (op : Op) : State :=
  { s with trace := s.trace ++ [op] }

/-- Sequencing of statements: the next statement runs only if nothing was thrown. -/
def Outcome.andThen (o : Outcome) (f : State → Outcome) : Outcome :=
  match o.thrown with
  | some _ => o
  | none => f o.state

/-! ## Host operations -/

/-- The call `obs_enter_graphics()`: the graphics context is acquired once more. -/
def obs_enter_graphics (s : State) : State :=
  { s with depth := s.depth + 1, trace := s.trace ++ [Op.enter_graphics] }

/-- The call `obs_leave_graphics()`: one acquisition of the graphics context is released. -/
def obs_leave_graphics (s : State) : State :=
  { s with depth := s.depth - 1, trace := s.trace ++ [Op.leave_graphics] }

/-- Modelled from the spec: `gs_copy_texture(dst, src)` is a libobs function; following
the backend adapter's `copyFull`, it copies the full-resolution image (level 0) of `src`
into level 0 of `dst`. -/
def gs_copy_texture (dst src : texture) (s : State) : State :=
  { s with
    content := fun t k => if t = dst.id ∧ k = 0 then s.content src.id 0 else s.content t k,
    trace := s.trace ++ [Op.copy_texture dst.id src.id] }

/-- The statement `renderTarget = std::make_unique<gs::rendertarget>(format, GS_ZS_NONE)`:
the constructor may throw, in which case the member keeps its old value. -/
def make_rendertarget (host : Host) (format : gs_color_format) (s : State) : Outcome :=
  let s1 := s.emit (Op.rendertarget_create format)
  if host.rendertarget_ok format then
    ⟨none, { s1 with renderTarget := some ⟨s.allocs, format⟩, allocs := s.allocs + 1 }⟩
  else
    ⟨some (Error.host "Failed to create render target."), s1⟩

/-- The expression `effect->get_parameter(name).set_...(...)`: the lookup throws when the
program has no such parameter, otherwise the value is bound (`op` records the binding). -/
def set_parameter (host : Host) (name : String) (op : Op) (s : State) : Outcome :=
  if host.has_parameter name then ⟨none, s.emit op⟩
  else ⟨some (Error.host "parameter not found"), s⟩

/-- The call `gs_draw(GS_TRIS, 0, vertexBuffer->size())` in pass `pass` of the technique:
the six vertices of the quad are drawn into the scratch surface. -/
def gs_draw (host : Host) (input : ShaderInput) (pass : Nat) (s : State) : State :=
  { s with
    trace := s.trace ++ [Op.draw input.technique 6],
    scratch := host.shade input pass s.scratch }

/-- The iterations of `while (gs_effect_loop(effect, technique)) gs_draw(...)` that remain
when `remaining` passes of the technique are still to run and the next one is `pass`. -/
def effect_passes (host : Host) (input : ShaderInput) : Nat → Nat → State → State
  | 0, _, s => s
  | remaining + 1, pass, s =>
    effect_passes host input remaining (pass + 1) (gs_draw host input pass s)

/-- The loop `while (gs_effect_loop(effect, technique)) gs_draw(GS_TRIS, 0, vertexBuffer->size())`:
one draw per pass of the technique. -/
def effect_loop (host : Host) (input : ShaderInput) (s : State) : State :=
  effect_passes host input (host.technique_passes input.technique) 0 s

/-- The call `CopySubresourceRegion(target_t2, mip, 0, 0, 0, rt, 0, nullptr)`: the scratch
surface is copied into mip slot `mip` of the target. -/
def copy_subresource (target : texture) (mip : Nat) (s : State) : State :=
  { s with
    content := fun t k => if t = target.id ∧ k = mip then s.scratch else s.content t k,
    trace := s.trace ++ [Op.copy_subresource target.id mip] }

/-! ## The engine -/

/-- The `switch (generator)` of lines 162-181; the initial value "Draw" of `technique` is
overwritten for each of the six kernels. -/
def technique_of : generator → String
  | generator.Point => "Point"
  | generator.Linear => "Linear"
  | generator.Sharpen => "Sharpen"
  | generator.Smoothen => "Smoothen"
  | generator.Bicubic => "Bicubic"
  | generator.Lanczos => "Lanczos"

/-- The block "Draw mipmap layer" (lines 214-225).  `renderTarget->render(w, h)` opens a
render scope or throws; the scope is closed when the block is left, also by an exception
thrown from within it. -/
def draw_layer (host : Host) (target : texture) (technique : String) (strength : ℚ)
    (mip texture_width texture_height : Nat) (texel_width texel_height : ℚ)
    (s : State) : Outcome :=
  let s0 := s.emit (Op.render texture_width texture_height)
  if host.render_ok texture_width texture_height then
    let o :=
      (((set_parameter host "image" (Op.set_texture "image" target.id) s0).andThen
        (set_parameter host "level" (Op.set_int "level" (Int.ofNat (mip - 1))))).andThen
        (set_parameter host "imageTexel"
          (Op.set_float2 "imageTexel" texel_width texel_height))).andThen
        (fun s1 =>
          (set_parameter host "strength" (Op.set_float "strength" strength) s1).andThen
            (fun s2 => ⟨none, effect_loop host
              { technique := technique, image := s2.content target.id,
                level := Int.ofNat (mip - 1), texel_width := texel_width,
                texel_height := texel_height, strength := strength,
                width := texture_width, height := texture_height } s2⟩))
    ⟨o.thrown, o.state.emit Op.render_end⟩
  else
    ⟨some (Error.host "Failed to begin rendering to render target."), s0⟩

/-- The loop `for (size_t mip = 1; mip < target_t2desc.MipLevels; mip++)` of lines 207-231,
entered at `mip` with the current values of the four loop-carried variables. -/
def mip_loop (host : Host) (target : texture) (technique : String) (strength : ℚ)
    (mip texture_width texture_height : Nat) (texel_width texel_height : ℚ)
    (s : State) : Outcome :=
  if mip < target.mip_levels then
    let w := texture_width / 2
    let h := texture_height / 2
    let tw := texel_width * 2
    let th := texel_height * 2
    let o := draw_layer host target technique strength mip w h tw th s
    match o.thrown with
    | some e => ⟨some e, o.state⟩
    | none =>
      mip_loop host target technique strength (mip + 1) w h tw th
        (copy_subresource target mip o.state)
  else
    ⟨none, s⟩
termination_by target.mip_levels - mip

/-- Lines 186-242 of `rebuild`: the mip stage and the exit of the critical section. -/
def render_stage (host : Host) (source target : texture) (technique : String) (strength : ℚ)
    (s : State) : Outcome :=
  let finish : State → Outcome := fun t =>
    ⟨none, obs_leave_graphics ((t.emit Op.load_indexbuffer).emit (Op.load_vertexbuffer false))⟩
  if source.type = texture_type.Normal then
    let texture_width := source.width
    let texture_height := source.height
    let texel_width : ℚ := 1 / (texture_width : ℚ)
    let texel_height : ℚ := 1 / (texture_height : ℚ)
    if host.win32 = true ∧ host.device_type = gs_device_type.GS_DEVICE_DIRECT3D_11 then
      if target.mip_levels = 0 then
        ⟨none, obs_leave_graphics s⟩
      else
        (mip_loop host target technique strength 1 texture_width texture_height
          texel_width texel_height s).andThen finish
    else
      finish s
  else
    finish s

/-- The test of lines 141-147: does the render target have to be (re)created? -/
def recreate (s : State) (source : texture) : Bool :=
  match s.renderTarget with
  | some rt => decide (source.color_format ≠ rt.color_format)
  | none => true

/-- The function `gs::mipmapper::rebuild(source, target, generator, strength)`; a null
`std::shared_ptr` is `none`.  The debug-only `assert(!source)` and `assert(!target)` sit in
branches where they hold and have no effect; the queries of lines 155-159 read the
environment and issue nothing.  The three checks throw before
`obs_enter_graphics()`; none of the later statements is guarded by a handler, so a host
error leaves the function at the statement that raised it. -/
def rebuild (host : Host) (s : State) (source target : Option texture) (gen : generator)
    (strength : ℚ) : Outcome :=
  match source with
  | none => ⟨none, s⟩
  | some src =>
    match target with
    | none => ⟨none, s⟩
    | some tgt =>
      if src.width ≠ tgt.width ∨ src.height ≠ tgt.height then
        ⟨some DimensionMismatch, s⟩
      else if src.type ≠ tgt.type then
        ⟨some TypeMismatch, s⟩
      else if src.color_format ≠ tgt.color_format then
        ⟨some FormatMismatch, s⟩
      else
        let s1 := gs_copy_texture tgt src (obs_enter_graphics s)
        (if recreate s1 src then make_rendertarget host src.color_format s1
          else ⟨none, s1⟩).andThen
          (fun s2 =>
            render_stage host src tgt (technique_of gen) strength
              ((s2.emit (Op.load_vertexbuffer true)).emit Op.load_indexbuffer))

/-- A sequence of calls on one engine instance: the arguments of one call. -/
structure Call where
  source : Option texture
  target : Option texture
  gen : generator
  strength : ℚ

/-- Runs a sequence of calls on one engine instance; an error that leaves a call is
caught by the caller, the state the call left behind is what the next call starts from. -/
def run (host : Host) (s : State) : List Call → State
  | [] => s
  | c :: cs => run host (rebuild host s c.source c.target c.gen c.strength).state cs

/-! ## Vocabulary of the statements -/

/-- The host calls made during a call that started in state `s` and ended as `o`. -/
def issued (s : State) (o : Outcome) : List Op :=
  o.state.trace.drop s.trace.length

/-- The four checks of lines 121-134 all pass. -/
def validated (src tgt : texture) : Prop :=
  src.width = tgt.width ∧ src.height = tgt.height ∧ src.type = tgt.type ∧
    src.color_format = tgt.color_format

instance (src tgt : texture) : Decidable (validated src tgt) := by
  unfold validated
  infer_instance

/-- Every host operation that can throw succeeds. -/
def Host.reliable (host : Host) : Prop :=
  (∀ f, host.rendertarget_ok f = true) ∧ (∀ w h, host.render_ok w h = true) ∧
    (∀ name, host.has_parameter name = true)

/-- The sizes of the regions requested from the render target, in order. -/
def renders : List Op → List (Nat × Nat)
  | [] => []
  | Op.render w h :: ops => (w, h) :: renders ops
  | _ :: ops => renders ops

/-- The values bound to the parameter `imageTexel`, in order. -/
def texels : List Op → List (ℚ × ℚ)
  | [] => []
  | Op.set_float2 _ x y :: ops => (x, y) :: texels ops
  | _ :: ops => texels ops

/-- The steps of a downsample pass that matter for ordering: the start of the render scope,
the texture bound to `image`, the value bound to `level`, and the write into a mip slot. -/
inductive PassStep where
  | start
  | sample (tex : Nat)
  | level (value : Int)
  | write (dst mip : Nat)
  deriving DecidableEq

/-- The ordering-relevant steps found in a trace, in order. -/
def pass_steps : List Op → List PassStep
  | [] => []
  | Op.render _ _ :: ops => PassStep.start :: pass_steps ops
  | Op.set_texture _ t :: ops => PassStep.sample t :: pass_steps ops
  | Op.set_int _ v :: ops => PassStep.level v :: pass_steps ops
  | Op.copy_subresource d k :: ops => PassStep.write d k :: pass_steps ops
  | _ :: ops => pass_steps ops

/-- The operations that occur inside the mip loop entered at `m` on the texture `tid`:
render scopes, parameter bindings, draws, and writes to mip slots `m` and above. -/
def inner_op (tid m : Nat) : Op → Prop
  | Op.render _ _ => True
  | Op.render_end => True
  | Op.set_texture _ _ => True
  | Op.set_int _ _ => True
  | Op.set_float2 _ _ _ => True
  | Op.set_float _ _ => True
  | Op.draw _ _ => True
  | Op.copy_subresource d k => d = tid ∧ m ≤ k
  | _ => False

/-- The operations that occur after the render-target test of `rebuild`: those of the
loop, the buffer bindings and the release of the graphics context. -/
def tail_op (tid : Nat) (op : Op) : Prop :=
  inner_op tid 1 op ∨ op = Op.load_vertexbuffer true ∨ op = Op.load_vertexbuffer false ∨
    op = Op.load_indexbuffer ∨ op = Op.leave_graphics

/-- What a part of the loop may change: it appends loop operations to the trace, leaves
depth, render target and allocation counter alone, leaves the mip slots below `m` alone,
and throws host errors only. -/
def loop_inv (tid m : Nat) (s : State) (o : Outcome) : Prop :=
  (∃ ops, o.state.trace = s.trace ++ ops ∧ ∀ op ∈ ops, inner_op tid m op) ∧
  o.state.depth = s.depth ∧ o.state.renderTarget = s.renderTarget ∧
  o.state.allocs = s.allocs ∧
  (∀ t k, k < m → o.state.content t k = s.content t k) ∧
  (∀ e, o.thrown = some e → ∃ msg, e = Error.host msg)

/-- The host calls of one "Draw mipmap layer" block when nothing throws. -/
def layer_ops (host : Host) (tid : Nat) (technique : String) (strength : ℚ)
    (mip w h : Nat) (tw th : ℚ) : List Op :=
  [Op.render w h, Op.set_texture "image" tid, Op.set_int "level" (Int.ofNat (mip - 1)),
    Op.set_float2 "imageTexel" tw th, Op.set_float "strength" strength] ++
  List.replicate (host.technique_passes technique) (Op.draw technique 6) ++ [Op.render_end]

/-- The host calls of `n` consecutive iterations of the loop when nothing throws, entered
at `mip` with the loop-carried variables `w h tw th`. -/
def loop_ops (host : Host) (tid : Nat) (technique : String) (strength : ℚ) :
    Nat → Nat → Nat → Nat → ℚ → ℚ → List Op
  | 0, _, _, _, _, _ => []
  | n + 1, mip, w, h, tw, th =>
    layer_ops host tid technique strength mip (w / 2) (h / 2) (tw * 2) (th * 2) ++
      Op.copy_subresource tid mip ::
        loop_ops host tid technique strength n (mip + 1) (w / 2) (h / 2) (tw * 2) (th * 2)

/-- The three errors of the validation block. -/
def validation_error (e : Error) : Prop :=
  e = DimensionMismatch ∨ e = TypeMismatch ∨ e = FormatMismatch

/-! ## Concrete inputs -/

/-- A Direct3D 11 host on which every operation succeeds. -/
def d3d11_host : Host :=
  { win32 := true, device_type := gs_device_type.GS_DEVICE_DIRECT3D_11,
    rendertarget_ok := fun _ => true, render_ok := fun _ _ => true,
    has_parameter := fun _ => true, technique_passes := fun _ => 1,
    shade := fun i _ _ => [i.width, i.height] }

/-- An OpenGL host on which every operation succeeds. -/
def opengl_host : Host :=
  { d3d11_host with win32 := false, device_type := gs_device_type.GS_DEVICE_OPENGL }

/-- A Direct3D 11 host on which the allocation of a render target fails. -/
def failing_host : Host :=
  { d3d11_host with rendertarget_ok := fun _ => false }

/-- A Direct3D 11 host whose render target refuses to open a scope on an empty region. -/
def strict_host : Host :=
  { d3d11_host with render_ok := fun w h => decide (0 < w ∧ 0 < h) }

/-- A fresh engine: nothing acquired, nothing issued, no render target held. -/
def idle : State :=
  { depth := 0, trace := [], content := fun t _ => [t], scratch := [],
    renderTarget := none, allocs := 0 }

/-- An ordinary 2D texture of format 0. -/
def tex2d (id w h levels : Nat) : texture :=
  ⟨id, w, h, texture_type.Normal, 0, levels⟩

/-! ## Lemmas on the loop -/

theorem inner_op_mono {tid m n : Nat} (h : m ≤ n) {op : Op} (hop : inner_op tid n op) :
    inner_op tid m op := by
  cases op <;> simp_all [inner_op]
  omega

theorem effect_passes_trace (host : Host) (input : ShaderInput) :
    ∀ (n pass : Nat) (s : State),
      (effect_passes host input n pass s).trace =
        s.trace ++ List.replicate n (Op.draw input.technique 6) := by
  intro n
  induction n with
  | zero => intro pass s; simp [effect_passes]
  | succ n ih =>
    intro pass s
    rw [effect_passes, ih, List.replicate_succ]
    simp [gs_draw]

theorem effect_passes_frame (host : Host) (input : ShaderInput) :
    ∀ (n pass : Nat) (s : State),
      (effect_passes host input n pass s).depth = s.depth ∧
      (effect_passes host input n pass s).content = s.content ∧
      (effect_passes host input n pass s).renderTarget = s.renderTarget ∧
      (effect_passes host input n pass s).allocs = s.allocs := by
  intro n
  induction n with
  | zero => intro pass s; simp [effect_passes]
  | succ n ih =>
    intro pass s
    rw [effect_passes]
    obtain ⟨h1, h2, h3, h4⟩ := ih (pass + 1) (gs_draw host input pass s)
    exact ⟨h1, h2, h3, h4⟩

theorem draw_layer_inv (host : Host) (target : texture) (technique : String) (strength : ℚ)
    (mip w h : Nat) (tw th : ℚ) (s : State) (m : Nat) :
    loop_inv target.id m s (draw_layer host target technique strength mip w h tw th s) ∧
    (draw_layer host target technique strength mip w h tw th s).state.content = s.content := by
  unfold draw_layer loop_inv
  by_cases h0 : host.render_ok w h = true
  · by_cases h1 : host.has_parameter "image" = true <;>
    by_cases h2 : host.has_parameter "level" = true <;>
    by_cases h3 : host.has_parameter "imageTexel" = true <;>
    by_cases h4 : host.has_parameter "strength" = true <;>
    simp [h0, h1, h2, h3, h4, set_parameter, Outcome.andThen, State.emit, effect_loop, inner_op,
      effect_passes_trace, effect_passes_frame]
    intro a ha
    rcases ha with ⟨_, rfl⟩ | rfl <;> trivial
  · simp [h0, State.emit, inner_op]

theorem mip_loop_inv (host : Host) (target : texture) (technique : String) (strength : ℚ) :
    ∀ (n mip w h : Nat) (tw th : ℚ) (s : State), target.mip_levels - mip = n →
      loop_inv target.id mip s (mip_loop host target technique strength mip w h tw th s) := by
  intro n
  induction n with
  | zero =>
    intro mip w h tw th s hn
    rw [mip_loop]
    have : ¬ mip < target.mip_levels := by omega
    simp [this, loop_inv]
  | succ n ih =>
    intro mip w h tw th s hn
    rw [mip_loop]
    have hlt : mip < target.mip_levels := by omega
    simp only [hlt, if_true]
    obtain ⟨⟨⟨ops, htr, hops⟩, hd, hrt, hal, hct, herr⟩, hc⟩ :=
      draw_layer_inv host target technique strength mip (w / 2) (h / 2) (tw * 2) (th * 2) s mip
    cases hth : (draw_layer host target technique strength mip (w / 2) (h / 2) (tw * 2)
        (th * 2) s).thrown with
    | some e =>
      simp only
      exact ⟨⟨ops, htr, hops⟩, hd, hrt, hal, hct, fun e' he' => herr e' (by simpa [hth] using he')⟩
    | none =>
      simp only
      obtain ⟨⟨ops2, htr2, hops2⟩, hd2, hrt2, hal2, hct2, herr2⟩ :=
        ih (mip + 1) (w / 2) (h / 2) (tw * 2) (th * 2)
          (copy_subresource target mip (draw_layer host target technique strength mip (w / 2)
            (h / 2) (tw * 2) (th * 2) s).state) (by omega)
      refine ⟨⟨ops ++ [Op.copy_subresource target.id mip] ++ ops2, ?_, ?_⟩, ?_, ?_, ?_, ?_, herr2⟩
      · rw [htr2]; simp [copy_subresource, htr]
      · intro op hop
        simp only [List.mem_append, List.mem_singleton] at hop
        rcases hop with (hop | rfl) | hop
        · exact hops op hop
        · simp [inner_op]
        · exact inner_op_mono (Nat.le_succ mip) (hops2 op hop)
      · rw [hd2]; simpa [copy_subresource] using hd
      · rw [hrt2]; simpa [copy_subresource] using hrt
      · rw [hal2]; simpa [copy_subresource] using hal
      · intro t k hk
        rw [hct2 t k (by omega)]
        simp only [copy_subresource]
        have : ¬ (t = target.id ∧ k = mip) := by omega
        simp [this, hc]

theorem draw_layer_reliable (host : Host) (hr : host.reliable) (target : texture)
    (technique : String) (strength : ℚ) (mip w h : Nat) (tw th : ℚ) (s : State) :
    (draw_layer host target technique strength mip w h tw th s).thrown = none ∧
    (draw_layer host target technique strength mip w h tw th s).state.trace =
      s.trace ++ layer_ops host target.id technique strength mip w h tw th := by
  obtain ⟨_, h2, h3⟩ := hr
  simp [draw_layer, set_parameter, Outcome.andThen, State.emit, effect_loop, layer_ops, h2, h3,
    effect_passes_trace]

theorem mip_loop_reliable (host : Host) (hr : host.reliable) (target : texture)
    (technique : String) (strength : ℚ) :
    ∀ (n mip w h : Nat) (tw th : ℚ) (s : State), target.mip_levels - mip = n →
      (mip_loop host target technique strength mip w h tw th s).thrown = none ∧
      (mip_loop host target technique strength mip w h tw th s).state.trace =
        s.trace ++ loop_ops host target.id technique strength n mip w h tw th := by
  intro n
  induction n with
  | zero =>
    intro mip w h tw th s hn
    rw [mip_loop]
    have : ¬ mip < target.mip_levels := by omega
    simp [this, loop_ops]
  | succ n ih =>
    intro mip w h tw th s hn
    rw [mip_loop]
    have hlt : mip < target.mip_levels := by omega
    obtain ⟨h1, h2⟩ :=
      draw_layer_reliable host hr target technique strength mip (w / 2) (h / 2) (tw * 2)
        (th * 2) s
    obtain ⟨h3, h4⟩ := ih (mip + 1) (w / 2) (h / 2) (tw * 2) (th * 2)
      (copy_subresource target mip (draw_layer host target technique strength mip (w / 2)
        (h / 2) (tw * 2) (th * 2) s).state) (by omega)
    simp only [hlt, if_true, h1]
    refine ⟨h3, ?_⟩
    rw [h4]
    simp [copy_subresource, h2, loop_ops]

/-! ## Lemmas on the whole call -/

theorem issued_eq {s : State} {o : Outcome} {ops : List Op}
    (h : o.state.trace = s.trace ++ ops) : issued s o = ops := by
  simp [issued, h]

theorem render_stage_inv (host : Host) (source target : texture) (technique : String)
    (strength : ℚ) (s : State) :
    (∃ ops, (render_stage host source target technique strength s).state.trace = s.trace ++ ops ∧
      ∀ op ∈ ops, tail_op target.id op) ∧
    (render_stage host source target technique strength s).state.renderTarget = s.renderTarget ∧
    (render_stage host source target technique strength s).state.allocs = s.allocs ∧
    (∀ t, (render_stage host source target technique strength s).state.content t 0 =
      s.content t 0) ∧
    (∀ e, (render_stage host source target technique strength s).thrown = some e →
      ∃ msg, e = Error.host msg) := by
  unfold render_stage
  by_cases h1 : source.type = texture_type.Normal
  · by_cases h2 : host.win32 = true ∧ host.device_type = gs_device_type.GS_DEVICE_DIRECT3D_11
    · by_cases h3 : target.mip_levels = 0
      · simp [h1, h2, h3, obs_leave_graphics, tail_op]
      · obtain ⟨⟨ops, htr, hops⟩, _, hrt, hal, hct, herr⟩ :=
          mip_loop_inv host target technique strength (target.mip_levels - 1) 1 source.width
            source.height (1 / (source.width : ℚ)) (1 / (source.height : ℚ)) s rfl
        simp only [h1, h2, h3, if_true, if_false, and_self]
        cases hth : (mip_loop host target technique strength 1 source.width source.height
            (1 / (source.width : ℚ)) (1 / (source.height : ℚ)) s).thrown with
        | some e =>
          simp only [Outcome.andThen, hth]
          refine ⟨⟨ops, htr, fun op hop => Or.inl (hops op hop)⟩, hrt, hal,
            fun t => hct t 0 (by omega), fun e' he' => herr e' (by rw [hth]; exact he')⟩
        | none =>
          simp only [Outcome.andThen, hth, obs_leave_graphics, State.emit, htr]
          refine ⟨⟨ops ++ [Op.load_indexbuffer, Op.load_vertexbuffer false, Op.leave_graphics],
            by simp, ?_⟩, hrt, hal, fun t => hct t 0 (by omega), by simp⟩
          intro op hop
          simp only [List.mem_append, List.mem_cons, List.mem_singleton, List.not_mem_nil,
            or_false] at hop
          rcases hop with hop | rfl | rfl | rfl
          · exact Or.inl (hops op hop)
          all_goals simp [tail_op]
    · simp [h1, h2, obs_leave_graphics, State.emit, tail_op]
  · simp [h1, obs_leave_graphics, State.emit, tail_op]

theorem rebuild_validated_inv (host : Host) (s : State) (src tgt : texture) (gen : generator)
    (strength : ℚ) (hv : validated src tgt) :
    (∃ tail, (rebuild host s (some src) (some tgt) gen strength).state.trace =
        s.trace ++ (Op.enter_graphics :: Op.copy_texture tgt.id src.id ::
          ((if recreate s src then [Op.rendertarget_create src.color_format] else []) ++ tail)) ∧
      ∀ op ∈ tail, tail_op tgt.id op) ∧
    (rebuild host s (some src) (some tgt) gen strength).state.content tgt.id 0 =
      s.content src.id 0 ∧
    (rebuild host s (some src) (some tgt) gen strength).state.content src.id 0 =
      s.content src.id 0 ∧
    (rebuild host s (some src) (some tgt) gen strength).state.renderTarget =
      (if recreate s src = true ∧ host.rendertarget_ok src.color_format = true then
        some ⟨s.allocs, src.color_format⟩ else s.renderTarget) ∧
    (∀ e, (rebuild host s (some src) (some tgt) gen strength).thrown = some e →
      ∃ msg, e = Error.host msg) := by
  obtain ⟨hw, hh, ht, hf⟩ := hv
  have hrec : recreate (gs_copy_texture tgt src (obs_enter_graphics s)) src = recreate s src := by
    simp [recreate, gs_copy_texture, obs_enter_graphics]
  simp only [rebuild, hw, hh, ht, hf, ne_eq, not_true_eq_false, or_self, if_false, hrec]
  by_cases hre : recreate s src = true
  · by_cases hok : host.rendertarget_ok tgt.color_format = true
    · simp only [hre, hok, if_true, make_rendertarget, Outcome.andThen, and_self]
      obtain ⟨⟨ops, htr, hops⟩, hrt, _, hct, herr⟩ :=
        render_stage_inv host src tgt (technique_of gen) strength
          (State.emit (State.emit { State.emit (gs_copy_texture tgt src (obs_enter_graphics s))
            (Op.rendertarget_create tgt.color_format) with
              renderTarget := some ⟨(gs_copy_texture tgt src (obs_enter_graphics s)).allocs,
                tgt.color_format⟩,
              allocs := (gs_copy_texture tgt src (obs_enter_graphics s)).allocs + 1 }
            (Op.load_vertexbuffer true)) Op.load_indexbuffer)
      refine ⟨⟨[Op.load_vertexbuffer true, Op.load_indexbuffer] ++ ops, ?_, ?_⟩, ?_, ?_, ?_, herr⟩
      · rw [htr]; simp [State.emit, gs_copy_texture, obs_enter_graphics]
      · intro op hop
        simp only [List.mem_append, List.mem_cons, List.mem_singleton, List.not_mem_nil,
          or_false] at hop
        rcases hop with (rfl | rfl) | hop
        · simp [tail_op]
        · simp [tail_op]
        · exact hops op hop
      · rw [hct]; simp [State.emit, gs_copy_texture, obs_enter_graphics]
      · rw [hct]; simp [State.emit, gs_copy_texture, obs_enter_graphics]
      · rw [hrt]; simp [State.emit, gs_copy_texture, obs_enter_graphics]
    · simp [hre, hok, make_rendertarget, Outcome.andThen, State.emit, gs_copy_texture,
        obs_enter_graphics]
  · simp only [hre, if_false, Outcome.andThen, false_and, Bool.false_eq_true]
    obtain ⟨⟨ops, htr, hops⟩, hrt, _, hct, herr⟩ :=
      render_stage_inv host src tgt (technique_of gen) strength
        (State.emit (State.emit (gs_copy_texture tgt src (obs_enter_graphics s))
          (Op.load_vertexbuffer true)) Op.load_indexbuffer)
    refine ⟨⟨[Op.load_vertexbuffer true, Op.load_indexbuffer] ++ ops, ?_, ?_⟩, ?_, ?_, ?_, herr⟩
    · rw [htr]; simp [State.emit, gs_copy_texture, obs_enter_graphics]
    · intro op hop
      simp only [List.mem_append, List.mem_cons, List.mem_singleton, List.not_mem_nil,
        or_false] at hop
      rcases hop with (rfl | rfl) | hop
      · simp [tail_op]
      · simp [tail_op]
      · exact hops op hop
    · rw [hct]; simp [State.emit, gs_copy_texture, obs_enter_graphics]
    · rw [hct]; simp [State.emit, gs_copy_texture, obs_enter_graphics]
    · rw [hrt]; simp [State.emit, gs_copy_texture, obs_enter_graphics]

theorem host_error_not_validation {e : Error} (h : ∃ msg, e = Error.host msg) :
    ¬ validation_error e := by
  obtain ⟨msg, rfl⟩ := h
  simp [validation_error, DimensionMismatch, TypeMismatch, FormatMismatch]

/-! ## Absent textures and validation -/

/-- C1: with a null source (whatever the target) and with a null target (whatever the
source) `rebuild` returns normally and the state is exactly the state before the call:
the graphics context is not acquired, no host call is issued, no texture content and no
render target changes. -/
theorem rebuild_null_noop (host : Host) (s : State) (source target : Option texture)
    (gen : generator) (strength : ℚ) :
    ((rebuild host s none target gen strength).thrown = none ∧
      (rebuild host s none target gen strength).state = s ∧
      issued s (rebuild host s none target gen strength) = []) ∧
    ((rebuild host s source none gen strength).thrown = none ∧
      (rebuild host s source none gen strength).state = s ∧
      issued s (rebuild host s source none gen strength) = []) := by
  refine ⟨⟨rfl, rfl, by simp [issued, rebuild]⟩, ?_⟩
  cases source with
  | none => exact ⟨rfl, rfl, by simp [issued, rebuild]⟩
  | some src => exact ⟨rfl, rfl, by simp [issued, rebuild]⟩

/-- C2: for non-null textures, when the widths or the heights differ `rebuild` throws
`DimensionMismatch` and the state is exactly the state before the call (no host call issued,
context not acquired, target content and render target untouched); when width and height
are equal, `DimensionMismatch` is not thrown. -/
theorem rebuild_dimension_mismatch (host : Host) (s : State) (src tgt : texture)
    (gen : generator) (strength : ℚ) :
    ((src.width ≠ tgt.width ∨ src.height ≠ tgt.height) →
      (rebuild host s (some src) (some tgt) gen strength).thrown = some DimensionMismatch ∧
      (rebuild host s (some src) (some tgt) gen strength).state = s ∧
      issued s (rebuild host s (some src) (some tgt) gen strength) = []) ∧
    (src.width = tgt.width → src.height = tgt.height →
      (rebuild host s (some src) (some tgt) gen strength).thrown ≠ some DimensionMismatch) := by
  constructor
  · intro h
    simp [rebuild, h, issued]
  · intro hw hh
    by_cases ht : src.type = tgt.type
    · by_cases hf : src.color_format = tgt.color_format
      · intro hthrown
        obtain ⟨_, _, _, _, herr⟩ := rebuild_validated_inv host s src tgt gen strength
          ⟨hw, hh, ht, hf⟩
        exact host_error_not_validation (herr _ hthrown) (Or.inl rfl)
      · simp [rebuild, hw, hh, ht, hf, FormatMismatch, DimensionMismatch]
    · simp [rebuild, hw, hh, ht, TypeMismatch, DimensionMismatch]

/-- Witness of C2: a 4x4 source against an 8x4 target. -/
theorem rebuild_dimension_mismatch_witness :
    (rebuild d3d11_host idle (some (tex2d 1 4 4 3)) (some (tex2d 2 8 4 4)) generator.Point
        1).thrown = some DimensionMismatch ∧
    (rebuild d3d11_host idle (some (tex2d 1 4 4 3)) (some (tex2d 2 8 4 4)) generator.Point
        1).state = idle ∧
    issued idle (rebuild d3d11_host idle (some (tex2d 1 4 4 3)) (some (tex2d 2 8 4 4))
        generator.Point 1) = [] :=
  (rebuild_dimension_mismatch d3d11_host idle (tex2d 1 4 4 3) (tex2d 2 8 4 4) generator.Point
    1).1 (Or.inl (by decide))

/-- C3: for non-null textures of equal width and height, differing types give
`TypeMismatch` (whatever the formats), equal types with differing formats give
`FormatMismatch`, in both cases with the state exactly as before the call; the three
validation errors are pairwise distinct; and a validation error is thrown exactly when
width, height, type or format differ. -/
theorem rebuild_type_format_mismatch (host : Host) (s : State) (src tgt : texture)
    (gen : generator) (strength : ℚ) :
    (src.width = tgt.width → src.height = tgt.height → src.type ≠ tgt.type →
      (rebuild host s (some src) (some tgt) gen strength).thrown = some TypeMismatch ∧
      (rebuild host s (some src) (some tgt) gen strength).state = s) ∧
    (src.width = tgt.width → src.height = tgt.height → src.type = tgt.type →
      src.color_format ≠ tgt.color_format →
      (rebuild host s (some src) (some tgt) gen strength).thrown = some FormatMismatch ∧
      (rebuild host s (some src) (some tgt) gen strength).state = s) ∧
    (TypeMismatch ≠ FormatMismatch ∧ TypeMismatch ≠ DimensionMismatch ∧
      FormatMismatch ≠ DimensionMismatch) ∧
    ((∃ e, (rebuild host s (some src) (some tgt) gen strength).thrown = some e ∧
        validation_error e) ↔
      (src.width ≠ tgt.width ∨ src.height ≠ tgt.height ∨ src.type ≠ tgt.type ∨
        src.color_format ≠ tgt.color_format)) := by
  refine ⟨?_, ?_, ⟨by decide, by decide, by decide⟩, ?_⟩
  · intro hw hh ht
    simp [rebuild, hw, hh, ht]
  · intro hw hh ht hf
    simp [rebuild, hw, hh, ht, hf]
  · by_cases hw : src.width = tgt.width
    · by_cases hh : src.height = tgt.height
      · by_cases ht : src.type = tgt.type
        · by_cases hf : src.color_format = tgt.color_format
          · obtain ⟨_, _, _, _, herr⟩ := rebuild_validated_inv host s src tgt gen strength
              ⟨hw, hh, ht, hf⟩
            constructor
            · rintro ⟨e, he, hve⟩
              exact absurd hve (host_error_not_validation (herr e he))
            · intro h
              simp [hw, hh, ht, hf] at h
          · simp [rebuild, hw, hh, ht, hf, validation_error]
        · simp [rebuild, hw, hh, ht, validation_error]
      · simp [rebuild, hw, hh, validation_error]
    · simp [rebuild, hw, validation_error]

/-- Witness of C3: a 2D source against a cube target of the same size and another format,
and against a 2D target of the same size and another format. -/
theorem rebuild_type_format_mismatch_witness :
    ((rebuild d3d11_host idle (some (tex2d 1 4 4 3))
        (some ⟨2, 4, 4, texture_type.Cube, 7, 3⟩) generator.Linear 1).thrown =
          some TypeMismatch ∧
      (rebuild d3d11_host idle (some (tex2d 1 4 4 3))
        (some ⟨2, 4, 4, texture_type.Cube, 7, 3⟩) generator.Linear 1).state = idle) ∧
    ((rebuild d3d11_host idle (some (tex2d 1 4 4 3))
        (some ⟨2, 4, 4, texture_type.Normal, 7, 3⟩) generator.Linear 1).thrown =
          some FormatMismatch ∧
      (rebuild d3d11_host idle (some (tex2d 1 4 4 3))
        (some ⟨2, 4, 4, texture_type.Normal, 7, 3⟩) generator.Linear 1).state = idle) :=
  ⟨(rebuild_type_format_mismatch d3d11_host idle (tex2d 1 4 4 3)
      ⟨2, 4, 4, texture_type.Cube, 7, 3⟩ generator.Linear 1).1 rfl rfl (by decide),
    (rebuild_type_format_mismatch d3d11_host idle (tex2d 1 4 4 3)
      ⟨2, 4, 4, texture_type.Normal, 7, 3⟩ generator.Linear 1).2.1 rfl rfl rfl (by decide)⟩

/-! ## Level 0 and the render target -/

theorem tail_op_not_copy {tid a b : Nat} : ¬ tail_op tid (Op.copy_texture a b) := by
  simp [tail_op, inner_op]

theorem tail_op_not_create {tid : Nat} {f : gs_color_format} :
    ¬ tail_op tid (Op.rendertarget_create f) := by
  simp [tail_op, inner_op]

theorem tail_op_write {tid d k : Nat} (h : tail_op tid (Op.copy_subresource d k)) :
    d = tid ∧ 1 ≤ k := by
  simpa [tail_op, inner_op] using h

theorem recreate_iff (s : State) (src : texture) :
    recreate s src = true ↔
      (s.renderTarget = none ∨
        ∃ rt, s.renderTarget = some rt ∧ rt.color_format ≠ src.color_format) := by
  unfold recreate
  cases h : s.renderTarget with
  | none => simp
  | some rt =>
    simp only [decide_eq_true_eq, Option.some.injEq, false_or, reduceCtorEq]
    constructor
    · intro hne
      exact ⟨rt, rfl, fun h2 => hne h2.symm⟩
    · rintro ⟨rt2, rfl, hne⟩ h2
      exact hne h2.symm

/-- C5: for every pair that passes validation, when the call ends level 0 of the target
holds what level 0 of the source held before the call (and still holds); the full copy
source -> target is the second host call, right after the acquisition of the graphics
context, it is issued once, and every later write into a mip slot goes to the target at a
slot index of at least 1. -/
theorem rebuild_level0_copy (host : Host) (s : State) (src tgt : texture) (gen : generator)
    (strength : ℚ) (hv : validated src tgt) :
    (rebuild host s (some src) (some tgt) gen strength).state.content tgt.id 0 =
      s.content src.id 0 ∧
    (rebuild host s (some src) (some tgt) gen strength).state.content tgt.id 0 =
      (rebuild host s (some src) (some tgt) gen strength).state.content src.id 0 ∧
    ∃ rest, issued s (rebuild host s (some src) (some tgt) gen strength) =
        Op.enter_graphics :: Op.copy_texture tgt.id src.id :: rest ∧
      (∀ a b, Op.copy_texture a b ∉ rest) ∧
      (∀ d k, Op.copy_subresource d k ∈ rest → d = tgt.id ∧ 1 ≤ k) := by
  obtain ⟨⟨tail, htr, htail⟩, hc1, hc2, _, _⟩ :=
    rebuild_validated_inv host s src tgt gen strength hv
  refine ⟨hc1, by rw [hc1, hc2], _, issued_eq htr, ?_, ?_⟩
  · intro a b hmem
    rw [List.mem_append] at hmem
    rcases hmem with hmem | hmem
    · split at hmem <;> simp at hmem
    · exact tail_op_not_copy (htail _ hmem)
  · intro d k hmem
    rw [List.mem_append] at hmem
    rcases hmem with hmem | hmem
    · split at hmem <;> simp at hmem
    · exact tail_op_write (htail _ hmem)

/-- Witness of C5: two distinct 4x4 textures with three levels on Direct3D 11. -/
theorem rebuild_level0_copy_witness :
    (rebuild d3d11_host idle (some (tex2d 1 4 4 3)) (some (tex2d 2 4 4 3)) generator.Point
      1).state.content 2 0 = idle.content 1 0 :=
  (rebuild_level0_copy d3d11_host idle (tex2d 1 4 4 3) (tex2d 2 4 4 3) generator.Point 1
    (by decide)).1

/-- C7: in any state reached by a sequence of calls on one engine, a call that passes
validation (and whose allocation, if one is made, succeeds) ends with a render target of the
source format held; an allocation is requested in the call exactly when no render target
was held or the held one has another format; a held render target of the source format is
kept as it is, whatever the sizes; and a call that is a no-op or fails validation leaves the
held render target and its surface as they were. -/
theorem render_target_cache (host : Host) (s0 : State) (calls : List Call)
    (source target : Option texture) (gen : generator) (strength : ℚ) :
    (∀ src tgt, source = some src → target = some tgt → validated src tgt →
      (host.rendertarget_ok src.color_format = true →
        ∃ rt, (rebuild host (run host s0 calls) source target gen strength).state.renderTarget =
          some rt ∧ rt.color_format = src.color_format) ∧
      ((∃ f, Op.rendertarget_create f ∈
          issued (run host s0 calls) (rebuild host (run host s0 calls) source target gen strength)) ↔
        ((run host s0 calls).renderTarget = none ∨
          ∃ rt, (run host s0 calls).renderTarget = some rt ∧
            rt.color_format ≠ src.color_format)) ∧
      (∀ rt, (run host s0 calls).renderTarget = some rt → rt.color_format = src.color_format →
        (rebuild host (run host s0 calls) source target gen strength).state.renderTarget =
          some rt)) ∧
    ((∀ src tgt, source = some src → target = some tgt → ¬ validated src tgt) →
      (rebuild host (run host s0 calls) source target gen strength).state.renderTarget =
        (run host s0 calls).renderTarget ∧
      (rebuild host (run host s0 calls) source target gen strength).state.scratch =
        (run host s0 calls).scratch) := by
  generalize run host s0 calls = s
  constructor
  · rintro src tgt rfl rfl hv
    obtain ⟨⟨tail, htr, htail⟩, _, _, hrt, _⟩ :=
      rebuild_validated_inv host s src tgt gen strength hv
    refine ⟨?_, ?_, ?_⟩
    · intro hok
      rw [hrt]
      by_cases hre : recreate s src = true
      · simp [hre, hok]
      · simp only [hre, false_and, if_false]
        have := (recreate_iff s src).not.mp hre
        push_neg at this
        cases hs : s.renderTarget with
        | none => exact absurd hs this.1
        | some rt => exact ⟨rt, rfl, this.2 rt hs⟩
    · rw [issued_eq htr, ← recreate_iff]
      constructor
      · rintro ⟨f, hmem⟩
        simp only [List.mem_cons, List.mem_append, reduceCtorEq, false_or] at hmem
        rcases hmem with hmem | hmem
        · by_contra hre
          simp [hre] at hmem
        · exact absurd (htail _ hmem) tail_op_not_create
      · intro hre
        exact ⟨src.color_format, by simp [hre]⟩
    · intro rt hs hfmt
      rw [hrt]
      have hre : ¬ recreate s src = true := by
        rw [recreate_iff]
        push_neg
        refine ⟨by simp [hs], ?_⟩
        intro rt2 hs2
        rw [hs] at hs2
        cases hs2
        exact hfmt
      simp [hre, hs]
  · intro hnv
    cases source with
    | none => exact ⟨rfl, rfl⟩
    | some src =>
      cases target with
      | none => exact ⟨rfl, rfl⟩
      | some tgt =>
        have hv := hnv src tgt rfl rfl
        unfold validated at hv
        by_cases hw : src.width = tgt.width
        · by_cases hh : src.height = tgt.height
          · by_cases ht : src.type = tgt.type
            · by_cases hf : src.color_format = tgt.color_format
              · exact absurd ⟨hw, hh, ht, hf⟩ hv
              · simp [rebuild, hw, hh, ht, hf]
            · simp [rebuild, hw, hh, ht]
          · simp [rebuild, hw, hh]
        · simp [rebuild, hw]

/-! ## The passes on a host where nothing fails -/

theorem rebuild_of_validated (host : Host) (s : State) (src tgt : texture) (gen : generator)
    (strength : ℚ) (hv : validated src tgt) :
    rebuild host s (some src) (some tgt) gen strength =
      (if recreate (gs_copy_texture tgt src (obs_enter_graphics s)) src then
          make_rendertarget host src.color_format (gs_copy_texture tgt src (obs_enter_graphics s))
        else ⟨none, gs_copy_texture tgt src (obs_enter_graphics s)⟩).andThen
        (fun s2 =>
          render_stage host src tgt (technique_of gen) strength
            ((s2.emit (Op.load_vertexbuffer true)).emit Op.load_indexbuffer)) := by
  obtain ⟨hw, hh, ht, hf⟩ := hv
  unfold rebuild
  simp only []
  rw [if_neg (by simp [hw, hh]), if_neg (by simp [ht]), if_neg (by simp [hf])]

theorem recreate_after_copy (s : State) (src tgt : texture) :
    recreate (gs_copy_texture tgt src (obs_enter_graphics s)) src = recreate s src := by
  simp [recreate, gs_copy_texture, obs_enter_graphics]

theorem rebuild_d3d11_trace (host : Host) (s : State) (src tgt : texture) (gen : generator)
    (strength : ℚ) (hv : validated src tgt) (h2d : tgt.type = texture_type.Normal)
    (hb : host.win32 = true ∧ host.device_type = gs_device_type.GS_DEVICE_DIRECT3D_11)
    (hr : host.reliable) :
    (rebuild host s (some src) (some tgt) gen strength).thrown = none ∧
    issued s (rebuild host s (some src) (some tgt) gen strength) =
      Op.enter_graphics :: Op.copy_texture tgt.id src.id ::
        ((if recreate s src then [Op.rendertarget_create src.color_format] else []) ++
          [Op.load_vertexbuffer true, Op.load_indexbuffer] ++
          (if tgt.mip_levels = 0 then [Op.leave_graphics]
            else loop_ops host tgt.id (technique_of gen) strength (tgt.mip_levels - 1) 1
                src.width src.height (1 / (src.width : ℚ)) (1 / (src.height : ℚ)) ++
              [Op.load_indexbuffer, Op.load_vertexbuffer false, Op.leave_graphics])) := by
  have ht : src.type = texture_type.Normal := hv.2.2.1.trans h2d
  have hstage : ∀ t : State,
      (render_stage host src tgt (technique_of gen) strength t).thrown = none ∧
      (render_stage host src tgt (technique_of gen) strength t).state.trace = t.trace ++
        (if tgt.mip_levels = 0 then [Op.leave_graphics]
          else loop_ops host tgt.id (technique_of gen) strength (tgt.mip_levels - 1) 1
              src.width src.height (1 / (src.width : ℚ)) (1 / (src.height : ℚ)) ++
            [Op.load_indexbuffer, Op.load_vertexbuffer false, Op.leave_graphics]) := by
    intro t
    unfold render_stage
    by_cases h0 : tgt.mip_levels = 0
    · simp [ht, hb, h0, obs_leave_graphics]
    · obtain ⟨h1, h2⟩ := mip_loop_reliable host hr tgt (technique_of gen) strength
        (tgt.mip_levels - 1) 1 src.width src.height (1 / (src.width : ℚ))
        (1 / (src.height : ℚ)) t rfl
      simp only [ht, hb, h0, and_self, if_true, if_false, Outcome.andThen, h1, h2,
        obs_leave_graphics, State.emit]
      simp
  rw [rebuild_of_validated host s src tgt gen strength hv, recreate_after_copy]
  apply And.intro
  · by_cases hre : recreate s src = true
    · simp [hre, make_rendertarget, hr.1, Outcome.andThen, (hstage _).1]
    · simp [hre, Outcome.andThen, (hstage _).1]
  · apply issued_eq
    by_cases hre : recreate s src = true
    · simp only [hre, if_true, make_rendertarget, hr.1, Outcome.andThen]
      rw [(hstage _).2]
      simp [State.emit, gs_copy_texture, obs_enter_graphics]
    · simp only [hre, Bool.false_eq_true, if_false, Outcome.andThen]
      rw [(hstage _).2]
      simp [State.emit, gs_copy_texture, obs_enter_graphics]

theorem pass_steps_append (a b : List Op) :
    pass_steps (a ++ b) = pass_steps a ++ pass_steps b := by
  induction a with
  | nil => rfl
  | cons op a ih => cases op <;> simp [pass_steps, ih]

theorem renders_append (a b : List Op) : renders (a ++ b) = renders a ++ renders b := by
  induction a with
  | nil => rfl
  | cons op a ih => cases op <;> simp [renders, ih]

theorem pass_steps_draws (n : Nat) (technique : String) (v : Nat) :
    pass_steps (List.replicate n (Op.draw technique v)) = [] := by
  induction n with
  | zero => rfl
  | succ n ih => simp [List.replicate_succ, pass_steps, ih]

theorem renders_draws (n : Nat) (technique : String) (v : Nat) :
    renders (List.replicate n (Op.draw technique v)) = [] := by
  induction n with
  | zero => rfl
  | succ n ih => simp [List.replicate_succ, renders, ih]

theorem pass_steps_layer_ops (host : Host) (tid : Nat) (technique : String) (strength : ℚ)
    (mip w h : Nat) (tw th : ℚ) :
    pass_steps (layer_ops host tid technique strength mip w h tw th) =
      [PassStep.start, PassStep.sample tid, PassStep.level (Int.ofNat (mip - 1))] := by
  simp [layer_ops, pass_steps_append, pass_steps, pass_steps_draws]

theorem renders_layer_ops (host : Host) (tid : Nat) (technique : String) (strength : ℚ)
    (mip w h : Nat) (tw th : ℚ) :
    renders (layer_ops host tid technique strength mip w h tw th) = [(w, h)] := by
  simp [layer_ops, renders_append, renders, renders_draws]

theorem pass_steps_loop_ops (host : Host) (tid : Nat) (technique : String) (strength : ℚ) :
    ∀ (n mip w h : Nat) (tw th : ℚ), 1 ≤ mip →
      pass_steps (loop_ops host tid technique strength n mip w h tw th) =
        (List.range' mip n).flatMap (fun k =>
          [PassStep.start, PassStep.sample tid, PassStep.level ((k : Int) - 1),
            PassStep.write tid k]) := by
  intro n
  induction n with
  | zero => intros; rfl
  | succ n ih =>
    intro mip w h tw th hm
    have hcast : Int.ofNat (mip - 1) = (mip : Int) - 1 := by
      simp only [Int.ofNat_eq_coe]
      omega
    rw [loop_ops, pass_steps_append, pass_steps_layer_ops, pass_steps,
      ih (mip + 1) (w / 2) (h / 2) (tw * 2) (th * 2) (by omega), List.range'_succ,
      List.flatMap_cons, hcast]
    rfl

theorem renders_loop_ops (host : Host) (tid : Nat) (technique : String) (strength : ℚ) :
    ∀ (n mip w h : Nat) (tw th : ℚ),
      renders (loop_ops host tid technique strength n mip w h tw th) =
        (List.range' mip n).map (fun k => (w / 2 ^ (k + 1 - mip), h / 2 ^ (k + 1 - mip))) := by
  intro n
  induction n with
  | zero => intros; rfl
  | succ n ih =>
    intro mip w h tw th
    have hstep : ∀ ops, renders (Op.copy_subresource tid mip :: ops) = renders ops :=
      fun _ => rfl
    rw [loop_ops, renders_append, renders_layer_ops, hstep,
      ih (mip + 1) (w / 2) (h / 2) (tw * 2) (th * 2), List.range'_succ, List.map_cons,
      List.singleton_append]
    congr 1
    · simp
    · apply List.map_congr_left
      intro k hk
      obtain ⟨i, _, rfl⟩ := List.mem_range'.mp hk
      have e1 : mip + 1 + 1 * i + 1 - (mip + 1) = i + 1 := by omega
      have e2 : mip + 1 + 1 * i + 1 - mip = i + 1 + 1 := by omega
      rw [e1, e2, pow_succ (2 : ℕ) (i + 1), Nat.mul_comm, Nat.div_div_eq_div_mul,
        Nat.div_div_eq_div_mul]

/-! ## The passes when no host operation fails -/

/-- On a host where no operation fails (one that also opens a render scope on an empty
region), a validated pair of ordinary 2D textures on Direct3D 11 gets one pass per level
`k = 1, ..., N-1` in increasing order, where `N` is the number of mip levels of the target:
pass `k` opens a render scope, binds the target texture as `image`, binds `level` to `k-1`
and writes into mip slot `k` of the target.  With `N = 0` the call consists of the copy, the
render-target test and the buffer binding, and then releases the context and returns. -/
theorem pass_order_without_failure (host : Host) (s : State) (src tgt : texture) (gen : generator)
    (strength : ℚ) (hv : validated src tgt) (h2d : tgt.type = texture_type.Normal)
    (hb : host.win32 = true ∧ host.device_type = gs_device_type.GS_DEVICE_DIRECT3D_11)
    (hr : host.reliable) :
    (rebuild host s (some src) (some tgt) gen strength).thrown = none ∧
    pass_steps (issued s (rebuild host s (some src) (some tgt) gen strength)) =
      (List.range' 1 (tgt.mip_levels - 1)).flatMap (fun k =>
        [PassStep.start, PassStep.sample tgt.id, PassStep.level ((k : Int) - 1),
          PassStep.write tgt.id k]) ∧
    (renders (issued s (rebuild host s (some src) (some tgt) gen strength))).length =
      tgt.mip_levels - 1 ∧
    (tgt.mip_levels = 0 →
      issued s (rebuild host s (some src) (some tgt) gen strength) =
        Op.enter_graphics :: Op.copy_texture tgt.id src.id ::
          ((if recreate s src then [Op.rendertarget_create src.color_format] else []) ++
            [Op.load_vertexbuffer true, Op.load_indexbuffer, Op.leave_graphics])) := by
  obtain ⟨h1, h2⟩ := rebuild_d3d11_trace host s src tgt gen strength hv h2d hb hr
  refine ⟨h1, ?_, ?_, ?_⟩
  · rw [h2]
    by_cases h0 : tgt.mip_levels = 0
    · cases hre : recreate s src <;> simp [h0, pass_steps, pass_steps_append]
    · cases hre : recreate s src <;>
        simp [h0, pass_steps, pass_steps_append, pass_steps_loop_ops]
  · rw [h2]
    by_cases h0 : tgt.mip_levels = 0
    · cases hre : recreate s src <;> simp [h0, renders, renders_append]
    · cases hre : recreate s src <;>
        simp [h0, renders, renders_append, renders_loop_ops]
  · intro h0
    rw [h2]
    simp [h0]

/-! ## Surfaces and backends without a mip stage -/

/-- C9: for a validated pair that is not ordinary 2D, and for a validated pair on OpenGL,
when the allocation of the render target (if one is made) succeeds the call returns
normally; it issues the level-0 copy, the render-target test and the buffer bindings and
nothing else: no render scope, no parameter binding, no draw and no write into a mip slot;
level 0 of the target receives the source image and every other slot of every texture
keeps its content. -/
theorem rebuild_unsupported_noop (host : Host) (s : State) (src tgt : texture) (gen : generator)
    (strength : ℚ) (hv : validated src tgt)
    (hcase : src.type ≠ texture_type.Normal ∨
      host.device_type = gs_device_type.GS_DEVICE_OPENGL)
    (hok : host.rendertarget_ok src.color_format = true) :
    (rebuild host s (some src) (some tgt) gen strength).thrown = none ∧
    issued s (rebuild host s (some src) (some tgt) gen strength) =
      Op.enter_graphics :: Op.copy_texture tgt.id src.id ::
        ((if recreate s src then [Op.rendertarget_create src.color_format] else []) ++
          [Op.load_vertexbuffer true, Op.load_indexbuffer, Op.load_indexbuffer,
            Op.load_vertexbuffer false, Op.leave_graphics]) ∧
    pass_steps (issued s (rebuild host s (some src) (some tgt) gen strength)) = [] ∧
    (∀ technique v,
      Op.draw technique v ∉ issued s (rebuild host s (some src) (some tgt) gen strength)) ∧
    (rebuild host s (some src) (some tgt) gen strength).state.content tgt.id 0 =
      s.content src.id 0 ∧
    (∀ t k, ¬ (t = tgt.id ∧ k = 0) →
      (rebuild host s (some src) (some tgt) gen strength).state.content t k =
        s.content t k) := by
  have hstage : ∀ t : State, render_stage host src tgt (technique_of gen) strength t =
      ⟨none, obs_leave_graphics
        ((t.emit Op.load_indexbuffer).emit (Op.load_vertexbuffer false))⟩ := by
    intro t
    unfold render_stage
    rcases hcase with h | h
    · simp [h]
    · simp [h]
  have hfull : rebuild host s (some src) (some tgt) gen strength =
      ⟨none, obs_leave_graphics (((((if recreate s src then
        { State.emit (gs_copy_texture tgt src (obs_enter_graphics s))
            (Op.rendertarget_create src.color_format) with
          renderTarget := some ⟨s.allocs, src.color_format⟩, allocs := s.allocs + 1 }
        else gs_copy_texture tgt src (obs_enter_graphics s)).emit
          (Op.load_vertexbuffer true)).emit Op.load_indexbuffer).emit
            Op.load_indexbuffer).emit (Op.load_vertexbuffer false))⟩ := by
    rw [rebuild_of_validated host s src tgt gen strength hv, recreate_after_copy]
    cases hre : recreate s src
    · simp [Outcome.andThen, hstage]
    · simp [Outcome.andThen, hstage, make_rendertarget, hok, gs_copy_texture,
        obs_enter_graphics]
  have htrace : issued s (rebuild host s (some src) (some tgt) gen strength) =
      Op.enter_graphics :: Op.copy_texture tgt.id src.id ::
        ((if recreate s src then [Op.rendertarget_create src.color_format] else []) ++
          [Op.load_vertexbuffer true, Op.load_indexbuffer, Op.load_indexbuffer,
            Op.load_vertexbuffer false, Op.leave_graphics]) := by
    apply issued_eq
    rw [hfull]
    cases hre : recreate s src <;>
      simp [obs_leave_graphics, State.emit, gs_copy_texture, obs_enter_graphics]
  refine ⟨by rw [hfull], htrace, ?_, ?_, ?_, ?_⟩
  · rw [htrace]
    cases hre : recreate s src <;> simp [pass_steps]
  · intro technique v
    rw [htrace]
    cases hre : recreate s src <;> simp
  · rw [hfull]
    cases hre : recreate s src <;>
      simp [obs_leave_graphics, State.emit, gs_copy_texture, obs_enter_graphics]
  · intro t k htk
    rw [hfull]
    cases hre : recreate s src <;>
      simp [obs_leave_graphics, State.emit, gs_copy_texture, obs_enter_graphics, htk]

/-- Witness of C9: a pair of cube textures on Direct3D 11, and a 2D pair on OpenGL. -/
theorem rebuild_unsupported_noop_witness :
    (rebuild d3d11_host idle (some ⟨1, 8, 8, texture_type.Cube, 0, 4⟩)
      (some ⟨2, 8, 8, texture_type.Cube, 0, 4⟩) generator.Lanczos 1).thrown = none ∧
    pass_steps (issued idle (rebuild opengl_host idle (some (tex2d 1 8 8 4))
      (some (tex2d 2 8 8 4)) generator.Lanczos 1)) = [] :=
  ⟨(rebuild_unsupported_noop d3d11_host idle ⟨1, 8, 8, texture_type.Cube, 0, 4⟩
      ⟨2, 8, 8, texture_type.Cube, 0, 4⟩ generator.Lanczos 1 (by decide)
      (Or.inl (by decide)) rfl).1,
    (rebuild_unsupported_noop opengl_host idle (tex2d 1 8 8 4) (tex2d 2 8 8 4)
      generator.Lanczos 1 (by decide) (Or.inr rfl) rfl).2.2.1⟩

/-- Witness of C7: after a first call with format 0, a second call with format 5 ends with
a render target of format 5 held. -/
theorem render_target_cache_witness :
    ∃ rt, (rebuild d3d11_host
        (run d3d11_host idle
          [⟨some (tex2d 1 4 4 3), some (tex2d 2 4 4 3), generator.Linear, 1⟩])
        (some ⟨3, 8, 8, texture_type.Normal, 5, 4⟩)
        (some ⟨4, 8, 8, texture_type.Normal, 5, 4⟩)
        generator.Linear 1).state.renderTarget = some rt ∧
      rt.color_format = (⟨3, 8, 8, texture_type.Normal, 5, 4⟩ : texture).color_format :=
  ((render_target_cache d3d11_host idle
    [⟨some (tex2d 1 4 4 3), some (tex2d 2 4 4 3), generator.Linear, 1⟩]
    (some ⟨3, 8, 8, texture_type.Normal, 5, 4⟩) (some ⟨4, 8, 8, texture_type.Normal, 5, 4⟩)
    generator.Linear 1).1 ⟨3, 8, 8, texture_type.Normal, 5, 4⟩
    ⟨4, 8, 8, texture_type.Normal, 5, 4⟩ rfl rfl (by decide)).1 rfl

/-! ## Where the code departs from its contract -/

/-- C4 at a 4x1 pair with three levels (the full chain 4x1, 2x1, 1x1): the two passes are
issued for regions of 2x0 and 1x0, because the height is halved without a lower bound; on
a host that refuses an empty region the first pass is requested for 2x0 and the call ends
there with the error of the host. -/
theorem rebuild_renders_4x1 :
    renders (issued idle (rebuild d3d11_host idle (some (tex2d 1 4 1 3)) (some (tex2d 2 4 1 3))
      generator.Point 1)) = [(2, 0), (1, 0)] ∧
    renders (issued idle (rebuild strict_host idle (some (tex2d 1 4 1 3)) (some (tex2d 2 4 1 3))
      generator.Point 1)) = [(2, 0)] ∧
    (rebuild strict_host idle (some (tex2d 1 4 1 3)) (some (tex2d 2 4 1 3))
      generator.Point 1).thrown =
        some (Error.host "Failed to begin rendering to render target.") := by
  have h := (rebuild_d3d11_trace d3d11_host idle (tex2d 1 4 1 3) (tex2d 2 4 1 3)
    generator.Point 1 (by decide) rfl ⟨rfl, rfl⟩ ⟨fun _ => rfl, fun _ _ => rfl, fun _ => rfl⟩).2
  refine ⟨?_, ?_, ?_⟩
  · rw [h]
    simp [tex2d, idle, recreate, loop_ops, layer_ops, renders, d3d11_host, technique_of]
  · simp [issued, rebuild, tex2d, idle, recreate, strict_host, d3d11_host, make_rendertarget,
      render_stage, mip_loop, draw_layer, technique_of, Outcome.andThen, gs_copy_texture,
      obs_enter_graphics, State.emit, renders]
  · simp [rebuild, tex2d, idle, recreate, strict_host, d3d11_host, make_rendertarget,
      render_stage, mip_loop, draw_layer, technique_of, Outcome.andThen, gs_copy_texture,
      obs_enter_graphics, State.emit]

/-- C6 at a 4x1 pair with three levels on a host that refuses an empty region: instead of
the two passes for levels 1 and 2 the call opens one render scope, for the region 2x0, and
ends there with the error of the host: nothing is bound, nothing is written, every mip slot
of the target from 1 on keeps its content, and the graphics context stays acquired.  At a
1280x720 pair with its full chain of eleven levels the call ends the same way in the pass
for level 10 (region 1x0), whose slot is never written. -/
theorem rebuild_passes_cut_short :
    (rebuild strict_host idle (some (tex2d 1 4 1 3)) (some (tex2d 2 4 1 3))
      generator.Linear 1).thrown =
        some (Error.host "Failed to begin rendering to render target.") ∧
    pass_steps (issued idle (rebuild strict_host idle (some (tex2d 1 4 1 3))
      (some (tex2d 2 4 1 3)) generator.Linear 1)) = [PassStep.start] ∧
    (∀ k, 1 ≤ k → (rebuild strict_host idle (some (tex2d 1 4 1 3)) (some (tex2d 2 4 1 3))
      generator.Linear 1).state.content 2 k = idle.content 2 k) ∧
    (rebuild strict_host idle (some (tex2d 1 4 1 3)) (some (tex2d 2 4 1 3))
      generator.Linear 1).state.depth = idle.depth + 1 ∧
    (rebuild strict_host idle (some (tex2d 1 1280 720 11)) (some (tex2d 2 1280 720 11))
      generator.Linear 1).thrown =
        some (Error.host "Failed to begin rendering to render target.") ∧
    renders (issued idle (rebuild strict_host idle (some (tex2d 1 1280 720 11))
      (some (tex2d 2 1280 720 11)) generator.Linear 1)) =
      [(640, 360), (320, 180), (160, 90), (80, 45), (40, 22), (20, 11), (10, 5), (5, 2),
        (2, 1), (1, 0)] ∧
    PassStep.write 2 10 ∉ pass_steps (issued idle (rebuild strict_host idle
      (some (tex2d 1 1280 720 11)) (some (tex2d 2 1280 720 11)) generator.Linear 1)) := by
  refine ⟨?_, ?_, ?_, ?_, ?_, ?_, ?_⟩
  · simp [rebuild, tex2d, idle, recreate, strict_host, d3d11_host, make_rendertarget,
      render_stage, mip_loop, draw_layer, technique_of, Outcome.andThen, gs_copy_texture,
      obs_enter_graphics, State.emit]
  · simp [issued, rebuild, tex2d, idle, recreate, strict_host, d3d11_host, make_rendertarget,
      render_stage, mip_loop, draw_layer, technique_of, Outcome.andThen, gs_copy_texture,
      obs_enter_graphics, State.emit, pass_steps]
  · intro k hk
    have hk0 : k ≠ 0 := by omega
    simp [rebuild, tex2d, idle, recreate, strict_host, d3d11_host, make_rendertarget,
      render_stage, mip_loop, draw_layer, technique_of, Outcome.andThen, gs_copy_texture,
      obs_enter_graphics, State.emit, hk0]
  · simp [rebuild, tex2d, idle, recreate, strict_host, d3d11_host, make_rendertarget,
      render_stage, mip_loop, draw_layer, technique_of, Outcome.andThen, gs_copy_texture,
      obs_enter_graphics, State.emit]
  · simp [rebuild, tex2d, idle, recreate, strict_host, d3d11_host, make_rendertarget,
      render_stage, mip_loop, draw_layer, set_parameter, effect_loop, effect_passes, gs_draw,
      copy_subresource, technique_of, Outcome.andThen, gs_copy_texture,
      obs_enter_graphics, State.emit]
  · simp [issued, rebuild, tex2d, idle, recreate, strict_host, d3d11_host, make_rendertarget,
      render_stage, mip_loop, draw_layer, set_parameter, effect_loop, effect_passes, gs_draw,
      copy_subresource, technique_of, Outcome.andThen, gs_copy_texture,
      obs_enter_graphics, State.emit, renders]
  · simp [issued, rebuild, tex2d, idle, recreate, strict_host, d3d11_host, make_rendertarget,
      render_stage, mip_loop, draw_layer, set_parameter, effect_loop, effect_passes, gs_draw,
      copy_subresource, technique_of, Outcome.andThen, gs_copy_texture,
      obs_enter_graphics, State.emit, pass_steps]

/-- C10 at a 3x3 pair with two levels: the call returns normally, its only pass renders a
1x1 region and binds `imageTexel` to `(2/3, 2/3)`, the value `1/3` of lines 189-190 doubled
once, which is not the reciprocal `(1, 1)` of the size rendered in that pass. -/
theorem texel_not_reciprocal_3x3 :
    (rebuild strict_host idle (some (tex2d 1 3 3 2)) (some (tex2d 2 3 3 2))
      generator.Linear 1).thrown = none ∧
    renders (issued idle (rebuild strict_host idle (some (tex2d 1 3 3 2)) (some (tex2d 2 3 3 2))
      generator.Linear 1)) = [(1, 1)] ∧
    texels (issued idle (rebuild strict_host idle (some (tex2d 1 3 3 2)) (some (tex2d 2 3 3 2))
      generator.Linear 1)) = [(2 / 3, 2 / 3)] ∧
    texels (issued idle (rebuild strict_host idle (some (tex2d 1 3 3 2)) (some (tex2d 2 3 3 2))
      generator.Linear 1)) ≠
      (renders (issued idle (rebuild strict_host idle (some (tex2d 1 3 3 2))
        (some (tex2d 2 3 3 2)) generator.Linear 1))).map
        (fun p => (1 / (p.1 : ℚ), 1 / (p.2 : ℚ))) := by
  have hr : renders (issued idle (rebuild strict_host idle (some (tex2d 1 3 3 2))
      (some (tex2d 2 3 3 2)) generator.Linear 1)) = [(1, 1)] := by
    simp [issued, rebuild, tex2d, idle, recreate, strict_host, d3d11_host, make_rendertarget,
      render_stage, mip_loop, draw_layer, set_parameter, effect_loop, effect_passes, gs_draw,
      copy_subresource, technique_of, Outcome.andThen, gs_copy_texture,
      obs_enter_graphics, obs_leave_graphics, State.emit, renders]
  have ht : texels (issued idle (rebuild strict_host idle (some (tex2d 1 3 3 2))
      (some (tex2d 2 3 3 2)) generator.Linear 1)) = [(2 / 3, 2 / 3)] := by
    simp [issued, rebuild, tex2d, idle, recreate, strict_host, d3d11_host, make_rendertarget,
      render_stage, mip_loop, draw_layer, set_parameter, effect_loop, effect_passes, gs_draw,
      copy_subresource, technique_of, Outcome.andThen, gs_copy_texture,
      obs_enter_graphics, obs_leave_graphics, State.emit, texels]
    norm_num
  refine ⟨?_, hr, ht, ?_⟩
  · simp [rebuild, tex2d, idle, recreate, strict_host, d3d11_host, make_rendertarget,
      render_stage, mip_loop, draw_layer, set_parameter, effect_loop, effect_passes, gs_draw,
      copy_subresource, technique_of, Outcome.andThen, gs_copy_texture,
      obs_enter_graphics, obs_leave_graphics, State.emit]
  · rw [hr, ht]
    norm_num

/-- C8 at a validated 4x4 pair when the allocation of the render target fails: the error of
the host leaves the call after the graphics context was acquired and before any release,
so the depth is one higher than before; on the host where nothing fails the same call
ends at the depth it started with. -/
theorem rebuild_leaves_context_acquired :
    (rebuild failing_host idle (some (tex2d 1 4 4 3)) (some (tex2d 2 4 4 3)) generator.Linear
      1).thrown = some (Error.host "Failed to create render target.") ∧
    issued idle (rebuild failing_host idle (some (tex2d 1 4 4 3)) (some (tex2d 2 4 4 3))
      generator.Linear 1) =
      [Op.enter_graphics, Op.copy_texture 2 1, Op.rendertarget_create 0] ∧
    (rebuild failing_host idle (some (tex2d 1 4 4 3)) (some (tex2d 2 4 4 3)) generator.Linear
      1).state.depth = idle.depth + 1 ∧
    (rebuild d3d11_host idle (some (tex2d 1 4 4 3)) (some (tex2d 2 4 4 3)) generator.Linear
      1).state.depth = idle.depth := by
  refine ⟨?_, ?_, ?_, ?_⟩
  · simp [rebuild, tex2d, idle, recreate, failing_host, d3d11_host, make_rendertarget,
      Outcome.andThen, gs_copy_texture, obs_enter_graphics, State.emit]
  · simp [issued, rebuild, tex2d, idle, recreate, failing_host, d3d11_host, make_rendertarget,
      Outcome.andThen, gs_copy_texture, obs_enter_graphics, State.emit]
  · simp [rebuild, tex2d, idle, recreate, failing_host, d3d11_host, make_rendertarget,
      Outcome.andThen, gs_copy_texture, obs_enter_graphics, State.emit]
  · simp [rebuild, tex2d, idle, recreate, d3d11_host, make_rendertarget, render_stage,
      mip_loop, draw_layer, set_parameter, effect_loop, effect_passes, gs_draw,
      copy_subresource, technique_of,
      Outcome.andThen, gs_copy_texture, obs_enter_graphics, obs_leave_graphics, State.emit]

end Mipmapper
